import Mathlib

/-!
# Shallow embedding of the V2G consulting engine

This file embeds the core computational functions of the V2G (vehicle-to-grid)
business consulting repository in Lean 4 and proves the specification claims
about them.

Conventions of the embedding:
* Python floats are modelled as exact rationals (`ℚ`); all the arithmetic in
  the modelled functions is addition, multiplication, division and comparison
  of decimal constants, which `ℚ` reproduces exactly.
* A Python function that can raise `ZeroDivisionError` is modelled as returning
  an `Option`, with `none` standing for the raised exception.
* Python's `float('inf')` sentinel for the payback period is modelled as
  `none : Option ℚ` inside the returned record.
* String-keyed dictionary lookups with defaults are modelled as chained `if`
  tests on `String`, in the order the source writes them.
* All modelled functions are deterministic pure functions, as in the source
  (the only stochastic function of the repository, `calculate_smp_revenue`,
  is not needed by any claim below).
-/

namespace V2G

/-- Business line tag: the two compared revenue strategies. -/
inductive BusinessType
  | DR
  | SMP
  deriving DecidableEq

/-- Recommendation tag returned by the scorers and the combiner. -/
inductive Rec
  | DR
  | SMP
  deriving DecidableEq

/-! ## Revenue/Cost Model (`v2g_business_analyzer.py`) -/

/-- `dr_rates['기본요금']`: per-kW monthly base fee (won). -/
def dr_basic_rate : ℚ := 3000

/-- `dr_rates['감축실적요금']`: per-kWh performance ("reduction") fee (won). -/
def dr_reduction_rate : ℚ := 150

/-- `dr_rates['가용용량요금']`: per-kW monthly capacity fee (won). -/
def dr_capacity_rate : ℚ := 2000

/-- The six-region location multiplier table of `calculate_dr_revenue`,
with default 1.0 for unknown locations (`dict.get(location, 1.0)`). -/
def location_factor (location : String) : ℚ :=
  if location = "수도권" then 1.2
  else if location = "충청권" then 1.0
  else if location = "영남권" then 1.1
  else if location = "호남권" then 0.9
  else if location = "강원권" then 0.8
  else if location = "제주권" then 0.7
  else 1.0

/-- The fixed 12-element seasonal multiplier curve of `calculate_dr_revenue`. -/
def seasonal_factors : List ℚ :=
  [1.3, 1.1, 0.8, 0.7, 0.9, 1.4, 1.5, 1.4, 1.0, 0.8, 1.0, 1.2]

/-- The dictionary returned by `calculate_dr_revenue`. -/
structure DRRevenue where
  annual_revenue : ℚ
  monthly_revenues : List ℚ
  basic_fee : ℚ
  capacity_fee : ℚ
  reduction_fee : ℚ

/-- Embedding of `V2GBusinessAnalyzer.calculate_dr_revenue`.  The Python loop
appends each month's total to `monthly_revenues` and accumulates the same
total into `annual_revenue`; the loop is rendered as a `map` for the list and
a `foldl` for the accumulator. -/
def calculate_dr_revenue (capacity_kw : ℚ) (location : String)
    (annual_utilization : ℚ) : DRRevenue :=
  let monthly_basic := capacity_kw * dr_basic_rate
  let monthly_capacity := capacity_kw * dr_capacity_rate * location_factor location
  let monthly_total := fun factor =>
    monthly_basic + monthly_capacity +
      capacity_kw * 30 * 2 * (annual_utilization * factor) * dr_reduction_rate
  let monthly_revenues := seasonal_factors.map monthly_total
  let annual_revenue := seasonal_factors.foldl (fun acc factor => acc + monthly_total factor) 0
  { annual_revenue := annual_revenue
    monthly_revenues := monthly_revenues
    basic_fee := monthly_basic * 12
    capacity_fee := monthly_capacity * 12
    reduction_fee := monthly_revenues.sum - (monthly_basic + monthly_capacity) * 12 }

/-- `base_costs` of `calculate_investment_costs`: per-kW rates for
v2g_equipment, infrastructure, installation, certification (in that order). -/
def base_costs : List ℚ := [800000, 300000, 200000, 100000]

/-- `additional_costs[business_type]`: per-kW rates for the line-specific
add-ons (DR: system_integration, monitoring; SMP: trading_system,
forecast_system), in source order. -/
def additional_costs : BusinessType → List ℚ
  | BusinessType.DR => [150000, 100000]
  | BusinessType.SMP => [200000, 120000]

/-- The scale ("economy of scale") discount factor of
`calculate_investment_costs`. -/
def scale_factor_of (capacity_kw : ℚ) : ℚ :=
  if capacity_kw ≥ 5000 then 0.85
  else if capacity_kw ≥ 2000 then 0.9
  else if capacity_kw ≥ 1000 then 0.95
  else 1.0

/-- The dictionary returned by `calculate_investment_costs`.  `cost_breakdown`
is the list of values of the Python `cost_breakdown` dict (each itemized
per-kW rate multiplied by the scale factor), in source order. -/
structure CostBreakdown where
  equipment_cost : ℚ
  additional_cost : ℚ
  total_investment : ℚ
  cost_breakdown : List ℚ
  scale_factor : ℚ
  unit_cost_per_kw : ℚ

/-- Embedding of `V2GBusinessAnalyzer.calculate_investment_costs`.  Returns
`none` for `capacity_kw = 0`, where the Python source raises
`ZeroDivisionError` computing `unit_cost_per_kw`. -/
def calculate_investment_costs (capacity_kw : ℚ) (business_type : BusinessType) :
    Option CostBreakdown :=
  let sf := scale_factor_of capacity_kw
  let all_costs := base_costs ++ additional_costs business_type
  let total_base_cost := base_costs.sum * capacity_kw * sf
  let total_additional_cost := (additional_costs business_type).sum * capacity_kw * sf
  if capacity_kw = 0 then none
  else some
    { equipment_cost := total_base_cost
      additional_cost := total_additional_cost
      total_investment := total_base_cost + total_additional_cost
      cost_breakdown := all_costs.map (fun v => v * sf)
      scale_factor := sf
      unit_cost_per_kw := (total_base_cost + total_additional_cost) / capacity_kw }

/-- The dictionary returned by `calculate_roi_metrics`.  `payback_period` is
`none` exactly where the source stores the `float('inf')` sentinel. -/
structure ROIMetrics where
  roi : ℚ
  payback_period : Option ℚ
  npv : ℚ
  irr : ℚ
  annual_net_income : ℚ

/-- Embedding of `V2GBusinessAnalyzer.calculate_roi_metrics`.  The source
computes `roi = (annual_net_income * operation_years - investment_cost) /
investment_cost * 100` unconditionally, so a zero `investment_cost` raises
`ZeroDivisionError` there, before the guarded `payback_period` and `irr`
expressions are reached; the embedding returns `none` in that case. -/
def calculate_roi_metrics (annual_revenue investment_cost : ℚ)
    (operation_years : ℕ) : Option ROIMetrics :=
  let annual_opex := investment_cost * 0.05
  let annual_net_income := annual_revenue - annual_opex
  if investment_cost = 0 then none
  else
    let roi := (annual_net_income * (operation_years : ℚ) - investment_cost) /
      investment_cost * 100
    let payback_period :=
      if annual_net_income > 0 then some (investment_cost / annual_net_income) else none
    let discount_rate : ℚ := 0.05
    let npv := -investment_cost +
      ((List.range operation_years).map
        (fun year => annual_net_income / (1 + discount_rate) ^ (year + 1))).sum
    let irr := if investment_cost > 0 then annual_net_income / investment_cost * 100 else 0
    some
      { roi := roi
        payback_period := payback_period
        npv := npv
        irr := irr
        annual_net_income := annual_net_income }

/-! ## Qualitative Scorer (`v2g_score_analyzer.py`) -/

/-- Input record of the scorer (`V2GScoreInput`).  The four `soh_*_r` fields
embed the source's `soh_*_ratio` fields, and `regular_pattern_r` /
`dr_dispatch_time_r` the source's `*_ratio` fields, unchanged in meaning. -/
structure V2GScoreInput where
  capacity_kw : ℚ
  location : String
  budget_billion : ℚ
  risk_preference : String
  regular_pattern_r : ℚ
  dr_dispatch_time_r : ℚ
  charging_spots : ℤ
  power_capacity_mva : ℚ
  total_ports : ℤ
  smart_ocpp_ports : ℤ
  v2g_ports : ℤ
  brand_type : String
  soh_under_70_r : ℚ
  soh_70_85_r : ℚ
  soh_85_95_r : ℚ
  soh_over_95_r : ℚ

/-- `self.dr_preferred_regions`. -/
def dr_preferred_regions : List String :=
  ["수도권", "세종", "광주", "대전", "대구", "강원권"]

/-- `self.smp_preferred_regions`. -/
def smp_preferred_regions : List String :=
  ["인천", "부산", "울산", "경상권", "충청권", "전라권", "제주권"]

/-- `self.region_mapping` applied with `dict.get(location, location)`. -/
def region_mapping (location : String) : String :=
  if location = "영남권" then "경상권"
  else if location = "호남권" then "전라권"
  else location

/-- Embedding of `calculate_region_score` [20 points]. -/
def calculate_region_score (location : String) : ℚ × ℚ :=
  let mapped := region_mapping location
  if location ∈ dr_preferred_regions ∨ mapped ∈ dr_preferred_regions then (20, 10)
  else if location ∈ smp_preferred_regions ∨ mapped ∈ smp_preferred_regions then (10, 20)
  else (15, 15)

/-- Embedding of `calculate_scale_score` [25 points]. -/
def calculate_scale_score (capacity_kw : ℚ) : ℚ × ℚ :=
  if capacity_kw ≤ 3000 then (25, 4)
  else if 3000 < capacity_kw ∧ capacity_kw ≤ 8000 then (17, 13)
  else if 8000 < capacity_kw ∧ capacity_kw ≤ 15000 then (11, 19)
  else (6, 25)

/-- Embedding of `calculate_risk_score` [12 points]; unknown tags default to
the neutral pair. -/
def calculate_risk_score (risk_preference : String) : ℚ × ℚ :=
  if risk_preference = "stable" then (12, 0)
  else if risk_preference = "neutral" then (6, 6)
  else if risk_preference = "high_risk" then (0, 12)
  else (6, 6)

/-- Embedding of `calculate_parking_pattern_score` [16 points].  The source
takes `regular_pattern_ratio` as its first argument but never reads it. -/
def calculate_parking_pattern_score (regular_pattern_r dr_dispatch_time_r : ℚ) :
    ℚ × ℚ :=
  let w : ℚ × ℚ :=
    if dr_dispatch_time_r > 0.5 then (0.8, 0.2)
    else if 0.25 ≤ dr_dispatch_time_r ∧ dr_dispatch_time_r ≤ 0.5 then (0.5, 0.5)
    else (0.2, 0.8)
  (16 * w.1, 16 * w.2)

/-- Embedding of `calculate_infrastructure_score` [5 points]: five paired
AND-bands with a neutral `(3, 3)` fallback. -/
def calculate_infrastructure_score (charging_spots : ℤ)
    (power_capacity_mva : ℚ) : ℚ × ℚ :=
  if charging_spots > 200 ∧ power_capacity_mva > 1 then (1, 5)
  else if (120 < charging_spots ∧ charging_spots ≤ 200) ∧
      (0.6 < power_capacity_mva ∧ power_capacity_mva ≤ 1) then (2, 4)
  else if (80 < charging_spots ∧ charging_spots ≤ 120) ∧
      (0.4 < power_capacity_mva ∧ power_capacity_mva ≤ 0.6) then (3, 3)
  else if (40 < charging_spots ∧ charging_spots ≤ 80) ∧
      (0.2 < power_capacity_mva ∧ power_capacity_mva ≤ 0.4) then (4, 2)
  else if charging_spots ≤ 40 ∧ power_capacity_mva ≤ 0.2 then (5, 1)
  else (3, 3)

/-- The inner `get_ratio_score` helper of `calculate_charger_ratio_score`. -/
def get_ratio_score (r : ℚ) : ℚ :=
  if r > 0.6 then 5
  else if 0.4 < r ∧ r ≤ 0.6 then 4
  else if 0.3 < r ∧ r ≤ 0.4 then 3
  else if 0.2 < r ∧ r ≤ 0.3 then 2
  else 1

/-- Embedding of `calculate_charger_ratio_score` [5 points]; both port
fractions default to 0 when `total_ports = 0`. -/
def calculate_charger_ratio_score (total_ports smart_ocpp_ports v2g_ports : ℤ) :
    ℚ × ℚ :=
  let r_dr : ℚ := if total_ports > 0 then (smart_ocpp_ports : ℚ) / (total_ports : ℚ) else 0
  let r_smp : ℚ := if total_ports > 0 then (v2g_ports : ℚ) / (total_ports : ℚ) else 0
  (get_ratio_score r_dr, get_ratio_score r_smp)

/-- Embedding of `calculate_brand_score` [3 points]. -/
def calculate_brand_score (brand_type : String) : ℚ × ℚ :=
  if brand_type = "b2g_large" then (3, 0) else (1, 3)

/-- Embedding of `calculate_battery_degradation_score` [14 points].  The four
bucket fractions are renormalized only when their sum is positive (the
source's division guard), the weighted-average SOH is thresholded for the SMP
score, and the DR score is the constant 14. -/
def calculate_battery_degradation_score (soh_under_70 soh_70_85 soh_85_95 soh_over_95 : ℚ) :
    ℚ × ℚ :=
  let total := soh_under_70 + soh_70_85 + soh_85_95 + soh_over_95
  let a := if total > 0 then soh_under_70 / total else soh_under_70
  let b := if total > 0 then soh_70_85 / total else soh_70_85
  let c := if total > 0 then soh_85_95 / total else soh_85_95
  let d := if total > 0 then soh_over_95 / total else soh_over_95
  let avg_soh := a * 0.7 + b * 0.775 + c * 0.9 + d * 0.975
  let smp_score : ℚ :=
    if avg_soh > 0.95 then 14
    else if 0.85 < avg_soh ∧ avg_soh ≤ 0.95 then 10
    else if 0.7 < avg_soh ∧ avg_soh ≤ 0.85 then 5
    else 0
  (14, smp_score)

/-- Embedding of `calculate_budget_score` [10 points]. -/
def calculate_budget_score (budget_billion : ℚ) : ℚ × ℚ :=
  if budget_billion < 10 then (10, 0)
  else if 10 ≤ budget_billion ∧ budget_billion < 30 then (8, 2)
  else if 30 ≤ budget_billion ∧ budget_billion < 80 then (6, 4)
  else if 80 ≤ budget_billion ∧ budget_billion < 150 then (5, 5)
  else if 150 ≤ budget_billion ∧ budget_billion < 300 then (4, 6)
  else if 300 ≤ budget_billion ∧ budget_billion < 500 then (2, 8)
  else (0, 10)

/-- The part of the dictionary returned by `calculate_comprehensive_score`
that the claims are about.  `total_dr` and `total_smp` are the unrounded sums
the source compares (the displayed `total_scores` are `round(·, 1)` copies;
the `recommendation` comparison uses the raw totals). -/
structure ScoreResult where
  total_dr : ℚ
  total_smp : ℚ
  recommendation : Rec
  score_gap : ℚ

/-- Embedding of `calculate_comprehensive_score`: the nine category pairs are
computed, summed componentwise, and compared with strict `>` on the DR side. -/
def calculate_comprehensive_score (inp : V2GScoreInput) : ScoreResult :=
  let region := calculate_region_score inp.location
  let scale := calculate_scale_score inp.capacity_kw
  let risk := calculate_risk_score inp.risk_preference
  let parking := calculate_parking_pattern_score inp.regular_pattern_r inp.dr_dispatch_time_r
  let infra := calculate_infrastructure_score inp.charging_spots inp.power_capacity_mva
  let charger := calculate_charger_ratio_score inp.total_ports inp.smart_ocpp_ports inp.v2g_ports
  let brand := calculate_brand_score inp.brand_type
  let battery := calculate_battery_degradation_score inp.soh_under_70_r inp.soh_70_85_r
    inp.soh_85_95_r inp.soh_over_95_r
  let budget := calculate_budget_score inp.budget_billion
  let total_dr := region.1 + scale.1 + risk.1 + parking.1 + infra.1 + charger.1 +
    brand.1 + battery.1 + budget.1
  let total_smp := region.2 + scale.2 + risk.2 + parking.2 + infra.2 + charger.2 +
    brand.2 + battery.2 + budget.2
  { total_dr := total_dr
    total_smp := total_smp
    recommendation := if total_dr > total_smp then Rec.DR else Rec.SMP
    score_gap := |total_dr - total_smp| }

/-! ## Recommendation Combiner (`v2g_integrated_analyzer.py`) -/

/-- The four confidence labels of `_create_integrated_comparison`
(매우 높음 / 높음 / 보통 / 낮음). -/
inductive Confidence
  | veryHigh
  | high
  | moderate
  | low
  deriving DecidableEq

/-- The dictionary returned by `_create_integrated_comparison` (its `metrics`
sub-dict flattened to the fields the claims need). -/
structure IntegratedComparison where
  revenue_recommendation : Rec
  score_recommendation : Rec
  final_recommendation : Rec
  recommendations_match : Bool
  confidence : Confidence
  dr_weighted : ℚ
  smp_weighted : ℚ
  roi_gap : ℚ
  weighted_gap : ℚ

/-- Embedding of `V2GIntegratedAnalyzer._create_integrated_comparison`,
taking the two ROI percentages, the two total scores and the scorer's own
recommendation as inputs (the source reads them out of its two result
dictionaries). -/
def create_integrated_comparison (dr_roi smp_roi dr_score smp_score : ℚ)
    (score_recommendation : Rec) : IntegratedComparison :=
  let revenue_recommendation := if dr_roi > smp_roi then Rec.DR else Rec.SMP
  let dr_weighted := dr_roi * 0.6 + dr_score * 0.4
  let smp_weighted := smp_roi * 0.6 + smp_score * 0.4
  let final_recommendation := if dr_weighted > smp_weighted then Rec.DR else Rec.SMP
  let weighted_gap := |dr_weighted - smp_weighted|
  let confidence :=
    if weighted_gap > 15 then Confidence.veryHigh
    else if weighted_gap > 10 then Confidence.high
    else if weighted_gap > 5 then Confidence.moderate
    else Confidence.low
  { revenue_recommendation := revenue_recommendation
    score_recommendation := score_recommendation
    final_recommendation := final_recommendation
    recommendations_match := decide (revenue_recommendation = score_recommendation)
    confidence := confidence
    dr_weighted := dr_weighted
    smp_weighted := smp_weighted
    roi_gap := |dr_roi - smp_roi|
    weighted_gap := weighted_gap }

/-! ## Helper lemmas -/

/-- The scale sub-scorer written as a chain of simple (non-conjunctive)
threshold tests; the compound guards of the source collapse because the
branches are tried in order. -/
lemma scale_score_eq (c : ℚ) :
    calculate_scale_score c =
      (if c ≤ 3000 then ((25 : ℚ), (4 : ℚ))
       else if c ≤ 8000 then (17, 13)
       else if c ≤ 15000 then (11, 19)
       else (6, 25)) := by
  unfold calculate_scale_score
  rcases le_or_lt c 3000 with h1 | h1
  · rw [if_pos h1, if_pos h1]
  · rcases le_or_lt c 8000 with h2 | h2
    · rw [if_neg (not_le.2 h1), if_pos ⟨h1, h2⟩, if_neg (not_le.2 h1), if_pos h2]
    · rcases le_or_lt c 15000 with h3 | h3
      · rw [if_neg (not_le.2 h1), if_neg (fun hh => absurd hh.2 (not_le.2 h2)),
          if_pos ⟨h2, h3⟩, if_neg (not_le.2 h1), if_neg (not_le.2 h2), if_pos h3]
      · rw [if_neg (not_le.2 h1), if_neg (fun hh => absurd hh.2 (not_le.2 h2)),
          if_neg (fun hh => absurd hh.2 (not_le.2 h3)), if_neg (not_le.2 h1),
          if_neg (not_le.2 h2), if_neg (not_le.2 h3)]

/-- Characterization of the confidence-label `if` chain of
`create_integrated_comparison` over an arbitrary gap value. -/
lemma confidence_spec (g : ℚ) :
    ((if g > 15 then Confidence.veryHigh else if g > 10 then Confidence.high
        else if g > 5 then Confidence.moderate else Confidence.low) =
        Confidence.veryHigh ↔ 15 < g) ∧
    ((if g > 15 then Confidence.veryHigh else if g > 10 then Confidence.high
        else if g > 5 then Confidence.moderate else Confidence.low) =
        Confidence.high ↔ 10 < g ∧ g ≤ 15) ∧
    ((if g > 15 then Confidence.veryHigh else if g > 10 then Confidence.high
        else if g > 5 then Confidence.moderate else Confidence.low) =
        Confidence.moderate ↔ 5 < g ∧ g ≤ 10) ∧
    ((if g > 15 then Confidence.veryHigh else if g > 10 then Confidence.high
        else if g > 5 then Confidence.moderate else Confidence.low) =
        Confidence.low ↔ g ≤ 5) := by
  split_ifs with h1 h2 h3
  · exact ⟨iff_of_true rfl h1,
      iff_of_false not_false (fun hx => by linarith [hx.2]),
      iff_of_false not_false (fun hx => by linarith [hx.2]),
      iff_of_false not_false (fun hx => by linarith)⟩
  · exact ⟨iff_of_false not_false h1,
      iff_of_true rfl ⟨h2, not_lt.1 h1⟩,
      iff_of_false not_false (fun hx => by linarith [hx.2]),
      iff_of_false not_false (fun hx => by linarith)⟩
  · exact ⟨iff_of_false not_false h1,
      iff_of_false not_false (fun hx => h2 hx.1),
      iff_of_true rfl ⟨h3, not_lt.1 h2⟩,
      iff_of_false not_false (fun hx => by linarith)⟩
  · exact ⟨iff_of_false not_false h1,
      iff_of_false not_false (fun hx => h2 hx.1),
      iff_of_false not_false (fun hx => h3 hx.1),
      iff_of_true rfl (not_lt.1 h3)⟩

/-! ## Claim theorems -/

/-- C1: calling `calculate_roi_metrics` with `investment_cost = 0` does not
return sentinel values: for every `annual_revenue` the source raises
`ZeroDivisionError` in the unguarded `roi` expression (modelled as `none`)
before the guarded `payback_period` and `irr` expressions can run, so the
claimed sentinel result is never produced. -/
theorem roi_metrics_zero_investment_faults (annual_revenue : ℚ) (operation_years : ℕ) :
    calculate_roi_metrics annual_revenue 0 operation_years = none := by
  unfold calculate_roi_metrics
  simp

/-- C3: `calculate_dr_revenue` is a deterministic pure function whose
`annual_revenue` equals the exact sum of its 12 monthly revenue values, each
month being base fee + location-scaled capacity fee + the seasonal
performance fee `capacity × 30 × 2 × utilization × seasonal_factor × 150`. -/
theorem dr_revenue_annual_eq_sum_monthly (capacity_kw : ℚ) (location : String)
    (annual_utilization : ℚ) :
    (calculate_dr_revenue capacity_kw location annual_utilization).annual_revenue =
      (calculate_dr_revenue capacity_kw location annual_utilization).monthly_revenues.sum ∧
    (calculate_dr_revenue capacity_kw location annual_utilization).monthly_revenues =
      seasonal_factors.map (fun factor =>
        capacity_kw * 3000 + capacity_kw * 2000 * location_factor location +
          capacity_kw * 30 * 2 * (annual_utilization * factor) * 150) := by
  constructor
  · simp only [calculate_dr_revenue, seasonal_factors, List.map_cons, List.map_nil,
      List.foldl_cons, List.foldl_nil, List.sum_cons, List.sum_nil]
    ring
  · rfl

/-- C4: whenever `investment_cost > 0` and the annual net income
(`annual_revenue − 5% of investment`) is ≤ 0, `calculate_roi_metrics` returns
normally (no division fault) and reports the infinite payback sentinel,
modelled as `payback_period = none`. -/
theorem payback_infinite_of_nonpositive_net_income (annual_revenue investment_cost : ℚ)
    (operation_years : ℕ) (hpos : 0 < investment_cost)
    (hnet : annual_revenue - investment_cost * 0.05 ≤ 0) :
    ∃ m, calculate_roi_metrics annual_revenue investment_cost operation_years = some m ∧
      m.payback_period = none := by
  unfold calculate_roi_metrics
  rw [if_neg (ne_of_gt hpos)]
  exact ⟨_, rfl, by simp [not_lt.2 hnet]⟩

/-- Witness for C4 at `annual_revenue = 0`, `investment_cost = 100`,
`operation_years = 10`: the net income is `−5 ≤ 0` and the payback sentinel
is returned. -/
theorem payback_infinite_of_nonpositive_net_income_wit :
    ∃ m, calculate_roi_metrics 0 100 10 = some m ∧ m.payback_period = none :=
  payback_infinite_of_nonpositive_net_income 0 100 10 (by norm_num) (by norm_num)

/-- C6: the scale sub-scorer is monotone in capacity — SMP points
non-decreasing and DR points non-increasing as capacity grows — and its bands
at the 3000/8000/15000 kW thresholds yield exactly the pairs
(25,4), (17,13), (11,19), (6,25). -/
theorem scale_score_monotone_and_bands (c1 c2 : ℚ) (h : c1 ≤ c2) :
    ((calculate_scale_score c2).1 ≤ (calculate_scale_score c1).1 ∧
      (calculate_scale_score c1).2 ≤ (calculate_scale_score c2).2) ∧
    calculate_scale_score c1 =
      (if c1 ≤ 3000 then ((25 : ℚ), (4 : ℚ))
       else if c1 ≤ 8000 then (17, 13)
       else if c1 ≤ 15000 then (11, 19)
       else (6, 25)) := by
  constructor
  · rw [scale_score_eq c1, scale_score_eq c2]
    split_ifs <;> refine ⟨?_, ?_⟩ <;> norm_num <;> linarith
  · exact scale_score_eq c1

/-- Witness for C6 at `c1 = 1000 ≤ c2 = 20000`: the DR score drops from 25 to
6 while the SMP score rises from 4 to 25, and both band equations evaluate. -/
theorem scale_score_monotone_and_bands_wit :
    ((calculate_scale_score 20000).1 ≤ (calculate_scale_score 1000).1 ∧
      (calculate_scale_score 1000).2 ≤ (calculate_scale_score 20000).2) ∧
    calculate_scale_score 1000 =
      (if (1000 : ℚ) ≤ 3000 then ((25 : ℚ), (4 : ℚ))
       else if (1000 : ℚ) ≤ 8000 then (17, 13)
       else if (1000 : ℚ) ≤ 15000 then (11, 19)
       else (6, 25)) :=
  scale_score_monotone_and_bands 1000 20000 (by norm_num)

/-- C8: any `(charging_spots, power_capacity_mva)` pair that matches none of
the five joint AND-bands of the infrastructure sub-scorer falls back to the
neutral pair (3, 3); the embedded function is total by construction, so no
input fails. -/
theorem infrastructure_score_fallback_neutral (charging_spots : ℤ)
    (power_capacity_mva : ℚ)
    (h : ¬((charging_spots > 200 ∧ power_capacity_mva > 1) ∨
        ((120 < charging_spots ∧ charging_spots ≤ 200) ∧
          (0.6 < power_capacity_mva ∧ power_capacity_mva ≤ 1)) ∨
        ((80 < charging_spots ∧ charging_spots ≤ 120) ∧
          (0.4 < power_capacity_mva ∧ power_capacity_mva ≤ 0.6)) ∨
        ((40 < charging_spots ∧ charging_spots ≤ 80) ∧
          (0.2 < power_capacity_mva ∧ power_capacity_mva ≤ 0.4)) ∨
        (charging_spots ≤ 40 ∧ power_capacity_mva ≤ 0.2))) :
    calculate_infrastructure_score charging_spots power_capacity_mva = (3, 3) := by
  unfold calculate_infrastructure_score
  split_ifs with h1 h2 h3 h4 h5
  · exact absurd (Or.inl h1) h
  · exact absurd (Or.inr (Or.inl h2)) h
  · exact absurd (Or.inr (Or.inr (Or.inl h3))) h
  · exact absurd (Or.inr (Or.inr (Or.inr (Or.inl h4)))) h
  · exact absurd (Or.inr (Or.inr (Or.inr (Or.inr h5)))) h
  · rfl

/-- Witness for C8 at `charging_spots = 50`, `power_capacity_mva = 0.5`: the
spot count lies in the fourth band but the substation capacity does not, so
no AND-band matches and the neutral (3, 3) pair is returned. -/
theorem infrastructure_score_fallback_neutral_wit :
    calculate_infrastructure_score 50 0.5 = (3, 3) :=
  infrastructure_score_fallback_neutral 50 0.5 (by norm_num)

/-- C9: for every 4-tuple of SOH bucket fractions — including tuples summing
to 0 or not summing to 1 — the battery-degradation sub-scorer returns DR
points exactly 14; the renormalization is guarded by `total > 0`, so the
embedded function is total (no division fault), and the SMP points always
land in {0, 5, 10, 14}. -/
theorem battery_score_dr_always_14 (a b c d : ℚ) :
    (calculate_battery_degradation_score a b c d).1 = 14 ∧
    ((calculate_battery_degradation_score a b c d).2 = 0 ∨
      (calculate_battery_degradation_score a b c d).2 = 5 ∨
      (calculate_battery_degradation_score a b c d).2 = 10 ∨
      (calculate_battery_degradation_score a b c d).2 = 14) := by
  constructor
  · rfl
  · simp only [calculate_battery_degradation_score]
    split_ifs <;> simp

/-- C10: the parking-pattern sub-scorer never reads its
`regular_pattern_ratio` argument — two inputs differing only there produce
identical (dr, smp) pairs — and the two returned values always sum to
exactly 16. -/
theorem parking_pattern_independent_and_sums_16 (r1 r2 dispatch : ℚ) :
    calculate_parking_pattern_score r1 dispatch =
      calculate_parking_pattern_score r2 dispatch ∧
    (calculate_parking_pattern_score r1 dispatch).1 +
      (calculate_parking_pattern_score r1 dispatch).2 = 16 := by
  constructor
  · rfl
  · unfold calculate_parking_pattern_score
    split_ifs <;> norm_num

/-- C2 counterexample: at `capacity_kw = 1000`, business line DR, the
`total_investment` field is 1,567,500,000 won while the sum of the itemized
`cost_breakdown` components (which the source stores per kW, each multiplied
by the 0.95 scale factor) is 1,567,500 won — the two differ by the capacity
factor, so the claimed equality fails. -/
theorem investment_total_vs_breakdown_sum_cex :
    ∃ cb, calculate_investment_costs 1000 BusinessType.DR = some cb ∧
      cb.total_investment = 1567500000 ∧ cb.cost_breakdown.sum = 1567500 ∧
      cb.total_investment ≠ cb.cost_breakdown.sum := by
  unfold calculate_investment_costs
  rw [if_neg (by norm_num : (1000 : ℚ) ≠ 0)]
  refine ⟨_, rfl, ?_, ?_, ?_⟩ <;>
    norm_num [base_costs, additional_costs, scale_factor_of, List.sum_cons, List.sum_nil]

/-- C2 (amended): for every nonzero `capacity_kw` and either business line,
`calculate_investment_costs` returns a breakdown whose `total_investment`
equals `capacity_kw` times the sum of the itemized per-kW cost-breakdown
components after the scale discount factor is applied (exact equality
in `ℚ`). -/
theorem investment_total_eq_capacity_mul_breakdown_sum (capacity_kw : ℚ)
    (business_type : BusinessType) (h : capacity_kw ≠ 0) :
    ∃ cb, calculate_investment_costs capacity_kw business_type = some cb ∧
      cb.total_investment = capacity_kw * cb.cost_breakdown.sum := by
  unfold calculate_investment_costs
  rw [if_neg h]
  refine ⟨_, rfl, ?_⟩
  cases business_type <;>
    simp only [base_costs, additional_costs, List.cons_append, List.nil_append,
      List.map_cons, List.map_nil, List.sum_cons, List.sum_nil] <;>
    ring

/-- Witness for the amended C2 at `capacity_kw = 1000`, business line DR. -/
theorem investment_total_eq_capacity_mul_breakdown_sum_wit :
    ∃ cb, calculate_investment_costs 1000 BusinessType.DR = some cb ∧
      cb.total_investment = 1000 * cb.cost_breakdown.sum :=
  investment_total_eq_capacity_mul_breakdown_sum 1000 BusinessType.DR (by norm_num)

/-- C5: the combiner computes `weighted = roi × 0.6 + score × 0.4` for each
line, recommends DR exactly when `weighted_dr > weighted_smp`, and assigns
the confidence label from the absolute weighted gap with thresholds
15 / 10 / 5 (매우 높음, 높음, 보통, 낮음 modelled as
veryHigh / high / moderate / low). -/
theorem integrated_comparison_weighted_formula (dr_roi smp_roi dr_score smp_score : ℚ)
    (srec : Rec) :
    (create_integrated_comparison dr_roi smp_roi dr_score smp_score srec).dr_weighted =
      dr_roi * 0.6 + dr_score * 0.4 ∧
    (create_integrated_comparison dr_roi smp_roi dr_score smp_score srec).smp_weighted =
      smp_roi * 0.6 + smp_score * 0.4 ∧
    ((create_integrated_comparison dr_roi smp_roi dr_score smp_score srec).final_recommendation =
        Rec.DR ↔
      (create_integrated_comparison dr_roi smp_roi dr_score smp_score srec).dr_weighted >
        (create_integrated_comparison dr_roi smp_roi dr_score smp_score srec).smp_weighted) ∧
    (create_integrated_comparison dr_roi smp_roi dr_score smp_score srec).weighted_gap =
      |(create_integrated_comparison dr_roi smp_roi dr_score smp_score srec).dr_weighted -
        (create_integrated_comparison dr_roi smp_roi dr_score smp_score srec).smp_weighted| ∧
    ((create_integrated_comparison dr_roi smp_roi dr_score smp_score srec).confidence =
        Confidence.veryHigh ↔
      15 < (create_integrated_comparison dr_roi smp_roi dr_score smp_score srec).weighted_gap) ∧
    ((create_integrated_comparison dr_roi smp_roi dr_score smp_score srec).confidence =
        Confidence.high ↔
      10 < (create_integrated_comparison dr_roi smp_roi dr_score smp_score srec).weighted_gap ∧
        (create_integrated_comparison dr_roi smp_roi dr_score smp_score srec).weighted_gap ≤ 15) ∧
    ((create_integrated_comparison dr_roi smp_roi dr_score smp_score srec).confidence =
        Confidence.moderate ↔
      5 < (create_integrated_comparison dr_roi smp_roi dr_score smp_score srec).weighted_gap ∧
        (create_integrated_comparison dr_roi smp_roi dr_score smp_score srec).weighted_gap ≤ 10) ∧
    ((create_integrated_comparison dr_roi smp_roi dr_score smp_score srec).confidence =
        Confidence.low ↔
      (create_integrated_comparison dr_roi smp_roi dr_score smp_score srec).weighted_gap ≤ 5) := by
  obtain ⟨hv, hh, hm, hl⟩ :=
    confidence_spec |dr_roi * 0.6 + dr_score * 0.4 - (smp_roi * 0.6 + smp_score * 0.4)|
  simp only [create_integrated_comparison]
  refine ⟨by trivial, by trivial, ?_, by trivial, hv, hh, hm, hl⟩
  split_ifs with hf
  · exact iff_of_true rfl hf
  · exact iff_of_false not_false hf

/-- C7: `calculate_comprehensive_score` recommends DR exactly when the raw DR
total strictly exceeds the raw SMP total; in particular an exact tie
(`total_dr = total_smp`) yields the SMP recommendation. -/
theorem comprehensive_recommendation_iff (inp : V2GScoreInput) :
    ((calculate_comprehensive_score inp).recommendation = Rec.DR ↔
      (calculate_comprehensive_score inp).total_dr >
        (calculate_comprehensive_score inp).total_smp) ∧
    ((calculate_comprehensive_score inp).recommendation = Rec.SMP ↔
      (calculate_comprehensive_score inp).total_dr ≤
        (calculate_comprehensive_score inp).total_smp) := by
  simp only [calculate_comprehensive_score]
  split_ifs with h
  · exact ⟨iff_of_true (by trivial) h, iff_of_false not_false (not_le.2 h)⟩
  · exact ⟨iff_of_false not_false h, iff_of_true (by trivial) (not_lt.1 h)⟩

end V2G
